import Mathlib

/-!
# moenet-agent: verification of spec claims against the source

Shallow embedding of the moenet-agent components that the claims C1..C10
talk about, translated from the Go sources:

* `internal/bird` connection pool (`Pool.acquire`, `Pool.release`,
  `Pool.executeWithRetry`) — claims C1, C4;
* `internal/circuitbreaker/breaker.go` — claim C5;
* `internal/httpclient/client.go` — claim C6;
* `internal/task/bird_config_sync.go` (`Sync`, the variant wired to
  `IBGPSync`) — claim C7;
* `internal/task/mesh_sync.go` (`ensureMeshTunnel`, the peer loop of
  `Sync`) — claim C8;
* `internal/task/ibgp_sync.go` (`generateConfig` and `ibgpTemplate`) —
  claim C9;
* `internal/task/session_sync.go` (`Sync`, `processSession`,
  `deleteSession`, …) — claims C2, C3;
* `internal/api/tools.go` (`handleTool`) — claim C10.

External effects (sockets, subprocesses, file writes, HTTP calls) are
modelled as emitted action values; machine state that the Go code keeps
behind mutexes/channels is modelled as explicit state records, and each
Go method becomes a pure state-transformer.  Goroutine interleaving is
modelled by treating each pool operation as one atomic step, which is
sound here because every shared-state mutation in the sources is guarded
by the pool mutex or by channel operations.
-/

set_option autoImplicit false

namespace MoenetAgent

/-! ## BIRD control-socket pool (`internal/bird`, pool variant with retry)

Connections are identified by `Nat` ids.  The Go `connections` channel
(capacity `maxSize`) is the `idle` queue; `inUse` is ghost state counting
the connections currently handed out to callers (the Go code has no such
variable — it is exactly what the spec invariant quantifies over). -/

namespace BirdPool

structure PoolState where
  /-- the `connections` channel: FIFO queue of idle connections; capacity `maxSize` -/
  idle : List Nat
  maxSize : Nat
  closed : Bool
  /-- fresh ids handed out by `newConn` -/
  nextId : Nat
  /-- ghost: connections handed out and not yet released or discarded -/
  inUse : List Nat
deriving Repr, DecidableEq

/-- `NewPool(socket, poolSize, maxSize)`: pre-populates the channel with
`poolSize` fresh connections. -/
def newPool (poolSize maxSize : Nat) : PoolState :=
  { idle := List.range poolSize
    maxSize := maxSize
    closed := false
    nextId := poolSize
    inUse := [] }

inductive AcquireResult where
  /-- a connection is handed to the caller -/
  | conn (c : Nat)
  /-- the caller blocks in `<-p.connections` waiting for a release -/
  | wouldBlock
deriving Repr, DecidableEq

/-- `Pool.acquire`:

```go
select {
case conn := <-p.connections:
    return conn, nil
default:
    p.mu.Lock()
    if len(p.connections) < p.maxSize {
        p.mu.Unlock()
        return p.newConn()
    }
    p.mu.Unlock()
    return <-p.connections, nil
}
```

Note that the guard compares `len(p.connections)` — the number of IDLE
connections queued in the channel — against `maxSize`; in the branch
where it runs the channel was just found empty. -/
def acquire (st : PoolState) : AcquireResult × PoolState :=
  match st.idle with
  | c :: rest =>
      (.conn c, { st with idle := rest, inUse := c :: st.inUse })
  | [] =>
      if st.idle.length < st.maxSize then
        (.conn st.nextId,
          { st with nextId := st.nextId + 1, inUse := st.nextId :: st.inUse })
      else
        (.wouldBlock, st)

/-- `Pool.release`: if the pool is closed the connection is closed; the
channel send succeeds only while the buffer holds fewer than `maxSize`
connections, otherwise the excess connection is closed. -/
def release (c : Nat) (st : PoolState) : PoolState :=
  if st.closed then
    { st with inUse := st.inUse.erase c }
  else if st.idle.length < st.maxSize then
    { st with idle := st.idle ++ [c], inUse := st.inUse.erase c }
  else
    { st with inUse := st.inUse.erase c }

/-- `Pool.discard`: closes a broken connection without returning it. -/
def discard (c : Nat) (st : PoolState) : PoolState :=
  { st with inUse := st.inUse.erase c }

/-- What happens when a command is written to and read from a given
connection: `fmt.Fprintf` fails, `readResponse` fails, or a complete
response is framed.  The environment (the BIRD daemon and the kernel
socket) decides this per connection id. -/
inductive ConnOutcome where
  | writeErr
  | readErr
  | ok (resp : String)
deriving Repr, DecidableEq

def ConnOutcome.isErr : ConnOutcome → Bool
  | .writeErr => true
  | .readErr => true
  | .ok _ => false

inductive ExecResult where
  | ok (resp : String)
  /-- "failed to send command: …" surfaced after retries ran out -/
  | sendFailed
  /-- "failed to read response: …" surfaced after retries ran out -/
  | readFailed
  /-- the caller is parked in `<-p.connections` -/
  | blocked
deriving Repr, DecidableEq

/-- Trace of connection hand-offs performed by one `Execute` call. -/
inductive PoolEvent where
  | acquired (c : Nat)
  | released (c : Nat)
  | discarded (c : Nat)
deriving Repr, DecidableEq

/-- `Pool.executeWithRetry(cmd, retries)`:

```go
conn, err := p.acquire()
if err != nil { return "", ... }
if _, err := fmt.Fprintf(conn.conn, "%s\n", cmd); err != nil {
    p.discard(conn)
    if retries > 0 { return p.executeWithRetry(cmd, retries-1) }
    return "", fmt.Errorf("failed to send command: %w", err)
}
result, err := conn.readResponse()
if err != nil {
    p.discard(conn)
    if retries > 0 { return p.executeWithRetry(cmd, retries-1) }
    return "", fmt.Errorf("failed to read response: %w", err)
}
p.release(conn)
return result, nil
```

The outcome of using a connection is supplied by `behave`. -/
def executeWithRetry (behave : Nat → ConnOutcome) :
    Nat → PoolState → ExecResult × PoolState × List PoolEvent
  | retries, st =>
    match acquire st with
    | (.wouldBlock, st1) => (.blocked, st1, [])
    | (.conn c, st1) =>
      match behave c with
      | .writeErr =>
        let st2 := discard c st1
        match retries with
        | r + 1 =>
          let (res, st3, evs) := executeWithRetry behave r st2
          (res, st3, .acquired c :: .discarded c :: evs)
        | 0 => (.sendFailed, st2, [.acquired c, .discarded c])
      | .readErr =>
        let st2 := discard c st1
        match retries with
        | r + 1 =>
          let (res, st3, evs) := executeWithRetry behave r st2
          (res, st3, .acquired c :: .discarded c :: evs)
        | 0 => (.readFailed, st2, [.acquired c, .discarded c])
      | .ok resp =>
        (.ok resp, release c st1, [.acquired c, .released c])

/-- `Pool.Execute(cmd)` is `executeWithRetry(cmd, 1)`: at most one
transparent retry. -/
def execute (behave : Nat → ConnOutcome) (st : PoolState) :
    ExecResult × PoolState × List PoolEvent :=
  executeWithRetry behave 1 st

/-- Well-formedness of the pool state: the idle queue holds no duplicate
connections, and `nextId` is fresh.  `NewPool` establishes this and every
operation preserves it. -/
def WF (st : PoolState) : Prop :=
  st.idle.Nodup ∧ ∀ c ∈ st.idle, c < st.nextId

instance (st : PoolState) : Decidable (WF st) := by
  unfold WF; infer_instance

end BirdPool

/-! ## Circuit breaker (`internal/circuitbreaker/breaker.go`)

Wall-clock time (`time.Now()`) is passed in explicitly as an `Int`
(nanoseconds); `time.Time.After` is strict `>` and `Add` is `+`. -/

namespace Breaker

inductive CBState where
  | closed
  | opened
  | halfOpen
deriving Repr, DecidableEq

structure CBConfig where
  failureThreshold : Nat
  successThreshold : Nat
  openDuration : Int
  halfOpenMaxRequests : Nat
deriving Repr, DecidableEq

/-- `DefaultConfig()`; `OpenDuration` is 30 s in nanoseconds. -/
def defaultConfig : CBConfig :=
  { failureThreshold := 5
    successThreshold := 3
    openDuration := 30 * 1000000000
    halfOpenMaxRequests := 1 }

structure CircuitBreaker where
  config : CBConfig
  state : CBState
  failureCount : Nat
  successCount : Nat
  halfOpenCount : Nat
  lastFailure : Int
deriving Repr, DecidableEq

/-- `New(config)`: zero-valued fields get the defaults; the breaker starts
Closed with zeroed counters (`lastFailure` is the zero `time.Time`). -/
def CircuitBreaker.new (config : CBConfig) : CircuitBreaker :=
  { config :=
      { failureThreshold :=
          if config.failureThreshold = 0 then 5 else config.failureThreshold
        successThreshold :=
          if config.successThreshold = 0 then 3 else config.successThreshold
        openDuration :=
          if config.openDuration = 0 then 30 * 1000000000 else config.openDuration
        halfOpenMaxRequests :=
          if config.halfOpenMaxRequests = 0 then 1 else config.halfOpenMaxRequests }
    state := .closed
    failureCount := 0
    successCount := 0
    halfOpenCount := 0
    lastFailure := 0 }

inductive CBErr where
  | circuitOpen
  | tooManyRequests
deriving Repr, DecidableEq

/-- `CircuitBreaker.Allow()` at wall-clock `now`. -/
def allow (now : Int) (cb : CircuitBreaker) : Option CBErr × CircuitBreaker :=
  match cb.state with
  | .closed => (none, cb)
  | .opened =>
      if now > cb.lastFailure + cb.config.openDuration then
        (none, { cb with state := .halfOpen, halfOpenCount := 0, successCount := 0 })
      else
        (some .circuitOpen, cb)
  | .halfOpen =>
      if cb.halfOpenCount ≥ cb.config.halfOpenMaxRequests then
        (some .tooManyRequests, cb)
      else
        (none, { cb with halfOpenCount := cb.halfOpenCount + 1 })

/-- `CircuitBreaker.RecordFailure()` at wall-clock `now`. -/
def recordFailure (now : Int) (cb : CircuitBreaker) : CircuitBreaker :=
  let cb := { cb with lastFailure := now }
  match cb.state with
  | .closed =>
      let cb := { cb with failureCount := cb.failureCount + 1 }
      if cb.failureCount ≥ cb.config.failureThreshold then
        { cb with state := .opened }
      else cb
  | .halfOpen => { cb with state := .opened, halfOpenCount := 0 }
  | .opened => cb

/-- `CircuitBreaker.RecordSuccess()`. -/
def recordSuccess (cb : CircuitBreaker) : CircuitBreaker :=
  match cb.state with
  | .closed => { cb with failureCount := 0 }
  | .halfOpen =>
      let cb := { cb with successCount := cb.successCount + 1,
                          halfOpenCount := cb.halfOpenCount - 1 }
      if cb.successCount ≥ cb.config.successThreshold then
        { cb with state := .closed, failureCount := 0, successCount := 0 }
      else cb
  | .opened => cb

/-- A sequence of consecutive `RecordFailure` calls at the given times. -/
def failAll (cb : CircuitBreaker) (times : List Int) : CircuitBreaker :=
  times.foldl (fun cb t => recordFailure t cb) cb

theorem recordFailure_config (now : Int) (cb : CircuitBreaker) :
    (recordFailure now cb).config = cb.config := by
  unfold recordFailure
  cases cb.state <;> (simp; try (split <;> rfl))

theorem failAll_config (times : List Int) (cb : CircuitBreaker) :
    (failAll cb times).config = cb.config := by
  induction times generalizing cb with
  | nil => rfl
  | cons t ts ih =>
      simpa [failAll, recordFailure_config] using ih (recordFailure t cb)

theorem recordFailure_lastFailure (now : Int) (cb : CircuitBreaker) :
    (recordFailure now cb).lastFailure = now := by
  unfold recordFailure
  cases cb.state <;> (simp; try (split <;> rfl))

theorem failAll_lastFailure (t : Int) (ts : List Int) (cb : CircuitBreaker) :
    (failAll cb (t :: ts)).lastFailure = (t :: ts).getLast (by simp) := by
  induction ts generalizing t cb with
  | nil => simpa [failAll] using recordFailure_lastFailure t cb
  | cons u us ih =>
      have := ih u (recordFailure t cb)
      simpa [failAll] using this

/-- One failure in Closed strictly below the threshold just counts up. -/
theorem recordFailure_closed_step (t : Int) (cfg : CBConfig)
    (fc sc hoc : Nat) (lf : Int) (h : fc + 1 < cfg.failureThreshold) :
    recordFailure t ⟨cfg, .closed, fc, sc, hoc, lf⟩ =
      ⟨cfg, .closed, fc + 1, sc, hoc, t⟩ := by
  simp [recordFailure]
  omega

/-- While still under the threshold, failures in Closed only count up. -/
theorem failAll_closed_lt (ts : List Int) (cb : CircuitBreaker)
    (hst : cb.state = .closed)
    (hlt : cb.failureCount + ts.length < cb.config.failureThreshold) :
    (failAll cb ts).state = .closed ∧
    (failAll cb ts).failureCount = cb.failureCount + ts.length := by
  induction ts generalizing cb with
  | nil => exact ⟨by simpa [failAll] using hst, by simp [failAll]⟩
  | cons t ts ih =>
      obtain ⟨cfg, stt, fc, sc, hoc, lf⟩ := cb
      change stt = CBState.closed at hst
      subst hst
      simp only [List.length_cons] at hlt
      have hone := recordFailure_closed_step t cfg fc sc hoc lf (by omega)
      have hrec : failAll ⟨cfg, .closed, fc, sc, hoc, lf⟩ (t :: ts) =
          failAll ⟨cfg, .closed, fc + 1, sc, hoc, t⟩ ts := by
        simp [failAll, hone]
      rw [hrec]
      have := ih ⟨cfg, .closed, fc + 1, sc, hoc, t⟩ rfl (by simp; omega)
      refine ⟨this.1, ?_⟩
      rw [this.2]
      simp
      omega

/-- Exactly `failureThreshold` consecutive failures starting from a
Closed breaker flip it Open. -/
theorem failAll_opens (ts : List Int) (cb : CircuitBreaker)
    (hst : cb.state = .closed)
    (heq : cb.failureCount + ts.length = cb.config.failureThreshold)
    (hne : ts ≠ []) :
    (failAll cb ts).state = .opened := by
  induction ts generalizing cb with
  | nil => exact absurd rfl hne
  | cons t ts ih =>
      obtain ⟨cfg, stt, fc, sc, hoc, lf⟩ := cb
      change stt = CBState.closed at hst
      subst hst
      simp only [List.length_cons] at heq
      cases ts with
      | nil =>
          have hthr : fc + 1 ≥ cfg.failureThreshold := by simp at heq; omega
          show (recordFailure t ⟨cfg, .closed, fc, sc, hoc, lf⟩).state = .opened
          unfold recordFailure
          simp only []
          rw [if_pos (by simpa using hthr)]
      | cons u us =>
          have hone := recordFailure_closed_step t cfg fc sc hoc lf (by simp at heq; omega)
          have hrec : failAll ⟨cfg, .closed, fc, sc, hoc, lf⟩ (t :: u :: us) =
              failAll ⟨cfg, .closed, fc + 1, sc, hoc, t⟩ (u :: us) := by
            simp [failAll, hone]
          rw [hrec]
          exact ih ⟨cfg, .closed, fc + 1, sc, hoc, t⟩ rfl (by simp at heq ⊢; omega) (by simp)

end Breaker

end MoenetAgent

namespace MoenetAgent

/-! ## Retrying HTTP transport (`internal/httpclient/client.go`)

One attempt either fails at the transport (`c.httpClient.Do` returns a
non-nil error — then `resp` is nil) or yields a response with a status
code.  The loop in `Client.Do` runs attempts `0 .. MaxRetries`; the
environment supplies the outcome of the `n`-th attempt. -/

namespace HttpClient

inductive Outcome where
  | transportErr
  | resp (status : Nat)
deriving Repr, DecidableEq

/-- `isRetryable(resp, err)`: network errors, 5xx and 429. -/
def isRetryable : Outcome → Bool
  | .transportErr => true
  | .resp s => (500 ≤ s && s ≤ 599) || s == 429

/-- What `Client.Do` hands back. -/
inductive DoReturn where
  /-- a non-retryable outcome returned to the caller right away, after
  `attempts` executed attempts -/
  | immediate (o : Outcome) (attempts : Nat)
  /-- every attempt was retryable and the budget ran out: the "all …
  retries failed" error (with the last response drained and closed) -/
  | exhausted (last : Outcome) (attempts : Nat)
deriving Repr, DecidableEq

/-- The retry loop of `Client.Do`, from attempt number `attempt` with
`remaining` retries left in the budget:

```go
for attempt := 0; attempt <= c.config.MaxRetries; attempt++ {
    resp, err := c.httpClient.Do(reqCopy)
    if !isRetryable(resp, err) { return resp, err }
    ...
}
```
-/
def doFrom (outcomes : Nat → Outcome) : Nat → Nat → DoReturn
  | 0, attempt =>
      if isRetryable (outcomes attempt) then .exhausted (outcomes attempt) (attempt + 1)
      else .immediate (outcomes attempt) (attempt + 1)
  | remaining + 1, attempt =>
      if isRetryable (outcomes attempt) then doFrom outcomes remaining (attempt + 1)
      else .immediate (outcomes attempt) (attempt + 1)

/-- `Client.Do` with retry budget `maxRetries`. -/
def clientDo (outcomes : Nat → Outcome) (maxRetries : Nat) : DoReturn :=
  doFrom outcomes maxRetries 0

theorem doFrom_immediate (outcomes : Nat → Outcome) :
    ∀ remaining attempt, isRetryable (outcomes attempt) = false →
      doFrom outcomes remaining attempt = .immediate (outcomes attempt) (attempt + 1) := by
  intro remaining attempt h
  cases remaining <;> simp [doFrom, h]

theorem doFrom_step (outcomes : Nat → Outcome) (remaining attempt : Nat)
    (h : isRetryable (outcomes attempt) = true) :
    doFrom outcomes (remaining + 1) attempt = doFrom outcomes remaining (attempt + 1) := by
  simp [doFrom, h]

end HttpClient

/-- C6: an attempt outcome is classified retryable exactly when it is a
transport error, a 5xx status, or 429; when the `i`-th attempt (with every
earlier attempt retryable, `i` within the budget) yields a non-retryable
outcome — any 2xx/3xx, or a 4xx other than 429 — `Do` returns it to the
caller immediately after exactly `i + 1` attempts; and when every attempt
in the budget is retryable, each one is retried until the budget of
`maxRetries + 1` attempts is spent. -/
theorem c6_retry_policy (outcomes : Nat → HttpClient.Outcome)
    (maxRetries i : Nat) (hle : i ≤ maxRetries)
    (hpre : ∀ j, j < i → HttpClient.isRetryable (outcomes j) = true) :
    (∀ s, HttpClient.isRetryable (.resp s) = true ↔
        (500 ≤ s ∧ s ≤ 599) ∨ s = 429) ∧
    HttpClient.isRetryable .transportErr = true ∧
    (HttpClient.isRetryable (outcomes i) = false →
      HttpClient.clientDo outcomes maxRetries =
        .immediate (outcomes i) (i + 1)) ∧
    ((∀ j, j ≤ maxRetries → HttpClient.isRetryable (outcomes j) = true) →
      HttpClient.clientDo outcomes maxRetries =
        .exhausted (outcomes maxRetries) (maxRetries + 1)) := by
  refine ⟨?_, rfl, ?_, ?_⟩
  · intro s
    simp [HttpClient.isRetryable]
  · -- `Do` stops at the first non-retryable outcome
    intro hstop
    unfold HttpClient.clientDo
    have key : ∀ k attempt, attempt + k = i → k ≤ maxRetries - attempt →
        (∀ j, attempt ≤ j → j < i → HttpClient.isRetryable (outcomes j) = true) →
        HttpClient.doFrom outcomes (maxRetries - attempt) attempt =
          .immediate (outcomes i) (i + 1) := by
      intro k
      induction k with
      | zero =>
          intro attempt hsum _ _
          have : attempt = i := by omega
          subst this
          exact HttpClient.doFrom_immediate outcomes _ _ hstop
      | succ k ih =>
          intro attempt hsum hrem hall
          have h1 : HttpClient.isRetryable (outcomes attempt) = true :=
            hall attempt le_rfl (by omega)
          obtain ⟨r, hr⟩ : ∃ r, maxRetries - attempt = r + 1 :=
            ⟨maxRetries - attempt - 1, by omega⟩
          rw [hr, HttpClient.doFrom_step outcomes r attempt h1]
          have : r = maxRetries - (attempt + 1) := by omega
          rw [this]
          exact ih (attempt + 1) (by omega) (by omega)
            (fun j hj hji => hall j (by omega) hji)
    simpa using key i 0 (by omega) (by omega) (fun j _ hj => hpre j hj)
  · -- with every outcome retryable the budget is spent
    intro hall
    unfold HttpClient.clientDo
    have key : ∀ k attempt, attempt + k = maxRetries →
        HttpClient.doFrom outcomes k attempt =
          .exhausted (outcomes maxRetries) (maxRetries + 1) := by
      intro k
      induction k with
      | zero =>
          intro attempt hsum
          have : attempt = maxRetries := by omega
          subst this
          simp [HttpClient.doFrom, hall attempt le_rfl]
      | succ k ih =>
          intro attempt hsum
          rw [HttpClient.doFrom_step outcomes k attempt (hall attempt (by omega))]
          exact ih (attempt + 1) (by omega)
    simpa using key maxRetries 0 (by omega)

/-- C6 witness: with `maxRetries = 3`, a 503 then a 429 then a 404 — the
two retryable responses are retried, the 404 is returned immediately as
the third attempt's result. -/
theorem c6_retry_policy_witness :
    (2 : Nat) ≤ 3 ∧
    (∀ j, j < 2 → HttpClient.isRetryable
      ((fun n => if n = 0 then .resp 503 else if n = 1 then .resp 429 else .resp 404)
        j) = true) ∧
    HttpClient.clientDo
        (fun n => if n = 0 then .resp 503 else if n = 1 then .resp 429 else .resp 404)
        3 =
      .immediate (.resp 404) 3 := by
  have h := c6_retry_policy
    (fun n => if n = 0 then .resp 503 else if n = 1 then .resp 429 else .resp 404)
    3 2 (by decide) (by decide)
  exact ⟨by decide, by decide, by simpa using h.2.2.1 (by decide)⟩

/-! ## Bird-config-sync task (`internal/task/bird_config_sync.go`, the
variant whose constructor takes the `IBGPSync` reference)

`Sync` is a state transformer over the task's own mutable state plus a
trace of external effects (the fan-out call, template/file renders, and
the BIRD reconfigure). -/

namespace BirdConfig

structure BirdIBGPPeer where
  nodeID : Nat
  nodeName : String
  loopbackIPv4 : String
  loopbackIPv6 : String
  isRR : Bool
deriving Repr, DecidableEq

/-- The fields of the fetched `BirdConfigResponse` that `Sync` inspects.
The node/policy payload only flows opaquely into the templates. -/
structure BirdConfigResponse where
  configHash : String
  ibgpPeers : List BirdIBGPPeer
deriving Repr, DecidableEq

structure SyncState where
  lastConfigHash : String
  /-- whether the `ibgpSync` reference is non-nil (wired in `main.go`) -/
  hasIbgpSync : Bool
deriving Repr, DecidableEq

inductive SyncAction where
  /-- `s.ibgpSync.UpdatePeersFromAPI(birdConfig.IBGPPeers)` -/
  | updateIbgpPeers (peers : List BirdIBGPPeer)
  /-- `renderFilters` writes `filters.conf` -/
  | renderFilters
  /-- `renderCommunities` writes `moenet_communities.conf` -/
  | renderCommunities
  /-- `renderBabel` writes `babel.conf` (the IGP file) -/
  | renderBabel
  /-- `s.birdPool.Configure()` -/
  | birdConfigure
deriving Repr, DecidableEq

/-- `BirdConfigSync.Sync` after a successful fetch of `fetched`:

```go
if s.ibgpSync != nil && len(birdConfig.IBGPPeers) > 0 {
    s.ibgpSync.UpdatePeersFromAPI(birdConfig.IBGPPeers)
}
if birdConfig.ConfigHash == lastHash { return nil }
renderFilters; renderCommunities; renderBabel
s.lastConfigHash = birdConfig.ConfigHash
s.birdPool.Configure()
```
-/
def birdConfigSync (st : SyncState) (fetched : BirdConfigResponse) :
    SyncState × List SyncAction :=
  let pushActs :=
    if st.hasIbgpSync ∧ fetched.ibgpPeers.length > 0 then
      [SyncAction.updateIbgpPeers fetched.ibgpPeers]
    else []
  if fetched.configHash = st.lastConfigHash then
    (st, pushActs)
  else
    ({ st with lastConfigHash := fetched.configHash },
      pushActs ++ [.renderFilters, .renderCommunities, .renderBabel, .birdConfigure])

end BirdConfig

/-- C7 counterexample: the iBGP peer-list push is NOT unconditional.  With
the `ibgpSync` reference wired and a fetched bundle whose peer list is
empty (hash equal to the last-applied one), the iteration performs no
fan-out push at all — `len(birdConfig.IBGPPeers) > 0` gates the push. -/
theorem c7_push_not_unconditional :
    (BirdConfig.birdConfigSync ⟨"h1", true⟩ ⟨"h1", []⟩).2 = [] ∧
    ∀ ps, BirdConfig.SyncAction.updateIbgpPeers ps ∉
      (BirdConfig.birdConfigSync ⟨"h1", true⟩ ⟨"h1", []⟩).2 := by
  constructor
  · rfl
  · intro ps
    simp [BirdConfig.birdConfigSync]

/-- C7 amended: when the `ibgpSync` consumer is wired and the fetched
bundle's iBGP peer list is non-empty, the peer list is pushed into the
fan-out regardless of whether the hash is stable; and when the fetched
`configHash` equals the last-applied hash the iteration returns without
rendering — no filter, community, or IGP (babel) file is written, no BGP
reconfigure is triggered, and the task state is unchanged. -/
theorem c7_push_and_hash_skip (st : BirdConfig.SyncState)
    (fetched : BirdConfig.BirdConfigResponse) :
    (st.hasIbgpSync = true → fetched.ibgpPeers ≠ [] →
      BirdConfig.SyncAction.updateIbgpPeers fetched.ibgpPeers ∈
        (BirdConfig.birdConfigSync st fetched).2) ∧
    (fetched.configHash = st.lastConfigHash →
      (BirdConfig.birdConfigSync st fetched).1 = st ∧
      BirdConfig.SyncAction.renderFilters ∉ (BirdConfig.birdConfigSync st fetched).2 ∧
      BirdConfig.SyncAction.renderCommunities ∉ (BirdConfig.birdConfigSync st fetched).2 ∧
      BirdConfig.SyncAction.renderBabel ∉ (BirdConfig.birdConfigSync st fetched).2 ∧
      BirdConfig.SyncAction.birdConfigure ∉ (BirdConfig.birdConfigSync st fetched).2) := by
  constructor
  · intro hwired hne
    unfold BirdConfig.birdConfigSync
    have hlen : fetched.ibgpPeers.length > 0 := List.length_pos.mpr hne
    rw [if_pos (⟨hwired, hlen⟩ : st.hasIbgpSync = true ∧ fetched.ibgpPeers.length > 0)]
    split <;> simp
  · intro hh
    unfold BirdConfig.birdConfigSync
    rw [if_pos hh]
    refine ⟨rfl, ?_, ?_, ?_, ?_⟩ <;> split <;> simp

/-- C7 amended, witness: hash stable and one peer fetched — the push
happens, nothing is rendered, no reconfigure. -/
theorem c7_push_and_hash_skip_witness :
    (true = true ∧ [BirdConfig.BirdIBGPPeer.mk 2 "node2" "172.22.188.2"
        "fd00:4242:7777::2" false] ≠ ([] : List BirdConfig.BirdIBGPPeer) ∧
      ("h1" : String) = "h1") ∧
    BirdConfig.SyncAction.updateIbgpPeers
        [BirdConfig.BirdIBGPPeer.mk 2 "node2" "172.22.188.2" "fd00:4242:7777::2" false] ∈
      (BirdConfig.birdConfigSync ⟨"h1", true⟩
        ⟨"h1", [BirdConfig.BirdIBGPPeer.mk 2 "node2" "172.22.188.2"
          "fd00:4242:7777::2" false]⟩).2 ∧
    BirdConfig.SyncAction.birdConfigure ∉
      (BirdConfig.birdConfigSync ⟨"h1", true⟩
        ⟨"h1", [BirdConfig.BirdIBGPPeer.mk 2 "node2" "172.22.188.2"
          "fd00:4242:7777::2" false]⟩).2 := by
  have h := c7_push_and_hash_skip ⟨"h1", true⟩
    ⟨"h1", [BirdConfig.BirdIBGPPeer.mk 2 "node2" "172.22.188.2"
      "fd00:4242:7777::2" false]⟩
  exact ⟨⟨rfl, by decide, rfl⟩, h.1 rfl (by decide), (h.2 rfl).2.2.2.2⟩

/-! ## Shared task data model (`internal/task/types.go`) -/

namespace Task

/-- `MeshPeer` from `internal/task/types.go`. -/
structure MeshPeer where
  nodeID : Nat
  nodeName : String
  loopbackIPv4 : String
  loopbackIPv6 : String
  publicKey : String
  endpoint : String
  mtu : Nat
  isRR : Bool
deriving Repr, DecidableEq

end Task

/-! ## Mesh-sync task (`internal/task/mesh_sync.go`)

`ensureMeshTunnel` computes the parameters handed to
`wgExecutor.CreateInterface` / `SetMTU` / `AddAddress`; the `Sync` peer
loop applies it to every fetched peer other than self. -/

namespace MeshSync

/-- Everything `ensureMeshTunnel` passes to the WireGuard executor. -/
structure TunnelSpec where
  ifname : String
  listenPort : Nat
  publicKey : String
  endpoint : String
  allowedIPs : List String
  keepalive : Nat
  mtu : Nat
  linkLocalAddr : String
deriving Repr, DecidableEq

/-- `MeshSync.ensureMeshTunnel(peer)`:

```go
ifname := fmt.Sprintf("wg_mesh_%d", peer.NodeID)
allowedIPs := []string{}
if peer.LoopbackIPv4 != "" { allowedIPs = append(allowedIPs, peer.LoopbackIPv4+"/32") }
if peer.LoopbackIPv6 != "" { allowedIPs = append(allowedIPs, peer.LoopbackIPv6+"/128") }
listenPort := 51820 + m.config.Node.ID
m.wgExecutor.CreateInterface(ifname, listenPort, peer.PublicKey, peer.Endpoint, allowedIPs, 25)
mtu := peer.MTU; if mtu == 0 { mtu = 1420 }
m.wgExecutor.SetMTU(ifname, mtu)
linkLocalAddr := fmt.Sprintf("fe80::%d/64", m.config.Node.ID)
m.wgExecutor.AddAddress(ifname, linkLocalAddr)
```
-/
def ensureMeshTunnel (localNodeID : Nat) (peer : Task.MeshPeer) : TunnelSpec :=
  { ifname := "wg_mesh_" ++ toString peer.nodeID
    listenPort := 51820 + localNodeID
    publicKey := peer.publicKey
    endpoint := peer.endpoint
    allowedIPs :=
      (if peer.loopbackIPv4 ≠ "" then [peer.loopbackIPv4 ++ "/32"] else []) ++
      (if peer.loopbackIPv6 ≠ "" then [peer.loopbackIPv6 ++ "/128"] else [])
    keepalive := 25
    mtu := if peer.mtu = 0 then 1420 else peer.mtu
    linkLocalAddr := "fe80::" ++ toString localNodeID ++ "/64" }

/-- The tunnel configurations one `MeshSync.Sync` iteration applies: every
fetched peer except self (`peer.NodeID == m.config.Node.ID` is skipped). -/
def meshSyncTunnels (localNodeID : Nat) (peers : List Task.MeshPeer) :
    List TunnelSpec :=
  peers.filterMap fun p =>
    if p.nodeID = localNodeID then none else some (ensureMeshTunnel localNodeID p)

/-! CIDR notation, to give the claim's "allowed-IPs broad enough to carry
all IPv4" a semantics: an entry allows every IPv4 address exactly when it
is a well-formed dotted-quad CIDR with prefix length 0. -/

def splitOnChar (sep : Char) : List Char → List (List Char)
  | [] => [[]]
  | c :: rest =>
      let r := splitOnChar sep rest
      if c = sep then [] :: r
      else
        match r with
        | g :: gs => (c :: g) :: gs
        | [] => [[c]]

def parseDecimal (cs : List Char) : Option Nat :=
  if cs ≠ [] ∧ cs.all Char.isDigit then
    some (cs.foldl (fun a c => a * 10 + (c.toNat - 48)) 0)
  else none

def isIPv4Octet (cs : List Char) : Bool :=
  match parseDecimal cs with
  | some n => n ≤ 255
  | none => false

def isDottedQuad (cs : List Char) : Bool :=
  match splitOnChar (Char.ofNat 46) cs with
  | [a, b, c, d] => isIPv4Octet a && isIPv4Octet b && isIPv4Octet c && isIPv4Octet d
  | _ => false

/-- `s` is an IPv4 CIDR entry covering every IPv4 address (prefix length 0). -/
def coversAllIPv4 (s : String) : Bool :=
  match splitOnChar (Char.ofNat 47) s.data with
  | [addr, len] => isDottedQuad addr && parseDecimal len == some 0
  | _ => false

/-- Claimed (spec words): the allowed-IPs of a mesh tunnel are broad
enough to carry IGP traffic over all IPv4 — some entry must allow every
IPv4 address. -/
def claimedAllIPv4Covered (ips : List String) : Prop :=
  ∃ e ∈ ips, coversAllIPv4 e = true

instance (ips : List String) : Decidable (claimedAllIPv4Covered ips) := by
  unfold claimedAllIPv4Covered; infer_instance

end MeshSync

/-- C8 counterexample: for a concrete remote peer (node 2, loopbacks
`172.22.188.2` / `fd00:4242:7777::2`) the tunnel's allowed-IPs are exactly
the two loopback host routes — no entry covers all IPv4 (nor, a fortiori,
the ULA block or link-local), contradicting the claimed breadth. -/
theorem c8_allowed_ips_not_broad :
    (MeshSync.ensureMeshTunnel 1
        ⟨2, "node2", "172.22.188.2", "fd00:4242:7777::2", "PK2", "203.0.113.2:51822",
          0, false⟩).allowedIPs =
      ["172.22.188.2/32", "fd00:4242:7777::2/128"] ∧
    ¬ MeshSync.claimedAllIPv4Covered
      (MeshSync.ensureMeshTunnel 1
        ⟨2, "node2", "172.22.188.2", "fd00:4242:7777::2", "PK2", "203.0.113.2:51822",
          0, false⟩).allowedIPs := by
  constructor
  · rfl
  · decide

/-- C8 amended: one mesh-sync iteration configures, for every fetched peer
other than self, a tunnel named `wg_mesh_<nodeId>` whose allowed-IPs are
the peer's loopback IPv4 `/32` and loopback IPv6 `/128` (each present
exactly when the corresponding field is non-empty, and nothing else), with
MTU defaulting to 1420 when the peer's MTU is 0, and a link-local address
`fe80::<localNodeId>/64`. -/
theorem c8_mesh_tunnel_parameters (localNodeID : Nat)
    (peers : List Task.MeshPeer) (p : Task.MeshPeer)
    (hmem : p ∈ peers) (hself : p.nodeID ≠ localNodeID) :
    MeshSync.ensureMeshTunnel localNodeID p ∈
      MeshSync.meshSyncTunnels localNodeID peers ∧
    (MeshSync.ensureMeshTunnel localNodeID p).ifname =
      "wg_mesh_" ++ toString p.nodeID ∧
    (p.loopbackIPv4 ≠ "" →
      p.loopbackIPv4 ++ "/32" ∈ (MeshSync.ensureMeshTunnel localNodeID p).allowedIPs) ∧
    (p.loopbackIPv6 ≠ "" →
      p.loopbackIPv6 ++ "/128" ∈ (MeshSync.ensureMeshTunnel localNodeID p).allowedIPs) ∧
    (∀ e ∈ (MeshSync.ensureMeshTunnel localNodeID p).allowedIPs,
      e = p.loopbackIPv4 ++ "/32" ∨ e = p.loopbackIPv6 ++ "/128") ∧
    (MeshSync.ensureMeshTunnel localNodeID p).mtu =
      (if p.mtu = 0 then 1420 else p.mtu) ∧
    (MeshSync.ensureMeshTunnel localNodeID p).linkLocalAddr =
      "fe80::" ++ toString localNodeID ++ "/64" := by
  refine ⟨?_, rfl, ?_, ?_, ?_, rfl, rfl⟩
  · exact List.mem_filterMap.mpr ⟨p, hmem, by rw [if_neg hself]⟩
  · intro h4
    simp [MeshSync.ensureMeshTunnel, h4]
  · intro h6
    simp [MeshSync.ensureMeshTunnel, h6]
  · intro e he
    simp only [MeshSync.ensureMeshTunnel, List.mem_append] at he
    rcases he with h | h <;> revert h <;> split <;> simp_all

/-- C8 amended, witness: self (node 1) plus peer node 2 with loopbacks and
MTU 0; the tunnel for node 2 is configured as stated. -/
theorem c8_mesh_tunnel_parameters_witness :
    (⟨2, "node2", "172.22.188.2", "fd00:4242:7777::2", "PK2", "203.0.113.2:51822",
        0, false⟩ : Task.MeshPeer) ∈
      [(⟨1, "node1", "172.22.188.1", "fd00:4242:7777::1", "PK1", "203.0.113.1:51821",
          0, false⟩ : Task.MeshPeer),
        ⟨2, "node2", "172.22.188.2", "fd00:4242:7777::2", "PK2", "203.0.113.2:51822",
          0, false⟩] ∧
    (MeshSync.ensureMeshTunnel 1
        ⟨2, "node2", "172.22.188.2", "fd00:4242:7777::2", "PK2", "203.0.113.2:51822",
          0, false⟩) ∈
      MeshSync.meshSyncTunnels 1
        [⟨1, "node1", "172.22.188.1", "fd00:4242:7777::1", "PK1", "203.0.113.1:51821",
            0, false⟩,
          ⟨2, "node2", "172.22.188.2", "fd00:4242:7777::2", "PK2", "203.0.113.2:51822",
            0, false⟩] ∧
    (MeshSync.ensureMeshTunnel 1
        ⟨2, "node2", "172.22.188.2", "fd00:4242:7777::2", "PK2", "203.0.113.2:51822",
          0, false⟩).mtu = 1420 :=
  ⟨by decide,
    (c8_mesh_tunnel_parameters 1
      [⟨1, "node1", "172.22.188.1", "fd00:4242:7777::1", "PK1", "203.0.113.1:51821",
          0, false⟩,
        ⟨2, "node2", "172.22.188.2", "fd00:4242:7777::2", "PK2", "203.0.113.2:51822",
          0, false⟩]
      ⟨2, "node2", "172.22.188.2", "fd00:4242:7777::2", "PK2", "203.0.113.2:51822",
        0, false⟩ (by decide) (by decide)).1,
    by decide⟩

/-! ## iBGP-sync task (`internal/task/ibgp_sync.go`)

`generateConfig` renders `ibgpTemplate` for one remote peer.  The rendered
file is modelled as its list of lines (the template's `{{- if}}` /
`{{- end}}` trim markers splice the `rr client;` line in or out). -/

namespace IBGP

def isPrefixOfChars : List Char → List Char → Bool
  | [], _ => true
  | _ :: _, [] => false
  | a :: as, b :: bs => a == b && isPrefixOfChars as bs

/-- `strings.Contains` on rune lists. -/
def containsSub (needle : List Char) : List Char → Bool
  | [] => needle.isEmpty
  | c :: rest => isPrefixOfChars needle (c :: rest) || containsSub needle rest

/-- `strings.Contains(strings.ToLower(i.config.Node.Name), "-rr")` — how
`generateConfig` decides whether the local node is a route reflector. -/
def localIsRR (nodeName : String) : Bool :=
  containsSub "-rr".data (nodeName.data.map Char.toLower)

/-- The lines of `ibgpTemplate` rendered for one peer with the
`MarkAsRRClient` flag. -/
def renderLines (markAsRRClient : Bool) (peer : Task.MeshPeer) : List String :=
  [ "# iBGP peer: " ++ peer.nodeName ++ " (Node " ++ toString peer.nodeID ++ ")",
    "# Auto-generated by moenet-agent",
    "",
    "protocol bgp ibgp_" ++ toString peer.nodeID ++ " from ibgp_peers \x7b",
    "    neighbor " ++ peer.loopbackIPv6 ++ " as 4242420216;",
    "    description \"iBGP to " ++ peer.nodeName ++ "\";" ] ++
  (if markAsRRClient then ["    rr client;"] else []) ++
  [ "    ",
    "    ipv4 \x7b",
    "        import all;",
    "        export all;",
    "        next hop self;",
    "    \x7d;",
    "    ",
    "    ipv6 \x7b",
    "        import all;",
    "        export all;",
    "        next hop self;",
    "    \x7d;",
    "\x7d" ]

/-- `IBGPSync.generateConfig`:

```go
localIsRR := strings.Contains(strings.ToLower(i.config.Node.Name), "-rr")
markAsRRClient := localIsRR && !peer.IsRR
```
-/
def generateConfig (localNodeName : String) (peer : Task.MeshPeer) : List String :=
  renderLines (localIsRR localNodeName && !peer.isRR) peer

/-- Two strings differing at some character position differ. -/
theorem string_ne_of_data_get (a b : String) (i : Nat)
    (h : a.data[i]? ≠ b.data[i]?) : a ≠ b :=
  fun e => h (by rw [e])

theorem comment_line_ne (x : String) :
    "# iBGP peer: " ++ x ≠ "    rr client;" := by
  apply string_ne_of_data_get _ _ 0
  rw [String.data_append, List.getElem?_append_left (by decide)]
  decide

theorem neighbor_line_ne (x : String) :
    "    neighbor " ++ x ≠ "    rr client;" := by
  apply string_ne_of_data_get _ _ 4
  rw [String.data_append, List.getElem?_append_left (by decide)]
  decide

theorem description_line_ne (x : String) :
    "    description \"iBGP to " ++ x ≠ "    rr client;" := by
  apply string_ne_of_data_get _ _ 4
  rw [String.data_append, List.getElem?_append_left (by decide)]
  decide

theorem protocol_line_ne (x : String) :
    "protocol bgp ibgp_" ++ x ≠ "    rr client;" := by
  apply string_ne_of_data_get _ _ 0
  rw [String.data_append, List.getElem?_append_left (by decide)]
  decide

/-- The `rr client;` directive line occurs in the rendered file exactly
when `MarkAsRRClient` was set, whatever the peer's name and addresses. -/
theorem rr_mem_renderLines (b : Bool) (peer : Task.MeshPeer) :
    "    rr client;" ∈ renderLines b peer ↔ b = true := by
  have h1 := comment_line_ne
    (peer.nodeName ++ " (Node " ++ toString peer.nodeID ++ ")")
  have h2 := neighbor_line_ne (peer.loopbackIPv6 ++ " as 4242420216;")
  have h3 := description_line_ne (peer.nodeName ++ "\";")
  have h4 := protocol_line_ne (toString peer.nodeID ++ " from ibgp_peers \x7b")
  unfold renderLines
  cases b with
  | true => simp
  | false =>
      simp only [Bool.false_eq_true, if_false, iff_false]
      intro hmem
      simp only [List.mem_append, List.mem_cons, List.not_mem_nil, or_false] at hmem
      rcases hmem with (h | h | h | h | h | h) | h
      · exact h1 (by simpa [String.append_assoc] using h.symm)
      · exact absurd h.symm (by decide)
      · exact absurd h.symm (by decide)
      · exact h4 (by simpa [String.append_assoc] using h.symm)
      · exact h2 (by simpa [String.append_assoc] using h.symm)
      · exact h3 (by simpa [String.append_assoc] using h.symm)
      · rcases h with h | h | h | h | h | h | h | h | h | h | h | h | h <;>
          exact absurd h (by decide)

end IBGP

/-- C9: the rendered iBGP peer file contains the `rr client;` directive
line if and only if the local node is a route reflector (its configured
node name contains `-rr`, case-insensitively) and the remote peer is not a
route reflector. -/
theorem c9_rr_client_iff (localNodeName : String) (peer : Task.MeshPeer) :
    "    rr client;" ∈ IBGP.generateConfig localNodeName peer ↔
      (IBGP.localIsRR localNodeName = true ∧ peer.isRR = false) := by
  unfold IBGP.generateConfig
  rw [IBGP.rr_mem_renderLines]
  constructor
  · intro h
    have := Bool.and_eq_true _ _ |>.mp h
    exact ⟨this.1, by simpa using this.2⟩
  · rintro ⟨h1, h2⟩
    simp [h1, h2]

/-! ## Session-sync task (`internal/task/session_sync.go`)

`Sync` and the per-status handlers are modelled as the list of external
actions they drive (WireGuard executor, config generator, BIRD pool,
firewall executor, CP status reports) plus the replacement of the local
session map.  The action vocabulary includes the firewall executor's
operations (`internal/firewall`), which exists in the repository and is
what the spec's "open/close the UDP port" refers to. -/

namespace SessSync

/-- `BgpSession` from `internal/task/types.go` (the `Data` payload is
opaque and never inspected by the sync code). -/
structure BgpSession where
  uuid : String
  asn : Nat
  name : String
  status : Nat
  typ : String
  interface : String
  endpoint : String
  credential : String
  ipv4 : String
  ipv6 : String
  ipv6LinkLocal : String
  mtu : Nat
  policy : String
deriving Repr, DecidableEq

/-- Status constants (`iota` block in `internal/task/types.go`). -/
def StatusDeleted : Nat := 0
def StatusDisabled : Nat := 1
def StatusEnabled : Nat := 2
def StatusPendingApproval : Nat := 3
def StatusQueuedForSetup : Nat := 4
def StatusQueuedForDelete : Nat := 5
def StatusProblem : Nat := 6
def StatusTeardown : Nat := 7

inductive SessAction where
  /-- `wgExecutor.CreateInterface(ifname, port, key, endpoint, allowedIPs, keepalive)` -/
  | createInterface (ifname : String) (listenPort : Nat) (peerKey : String)
      (endpoint : String) (allowedIPs : List String) (keepalive : Nat)
  /-- `wgExecutor.SetMTU` -/
  | setMTU (ifname : String) (mtu : Nat)
  /-- `birdConfig.GenerateSession` writes `peers/<name>.conf` -/
  | generatePeerConfig (peerName : String)
  /-- `birdConfig.RemoveSession` removes `peers/<name>.conf` -/
  | removePeerConfig (peerName : String)
  /-- `birdPool.Configure()` -/
  | birdConfigure
  /-- `wgExecutor.DeleteInterface` -/
  | deleteInterface (ifname : String)
  /-- `POST /agent/{router}/modify` with `{peer_id, status, last_error?}` -/
  | reportStatus (uuid status lastError : String)
  /-- `firewall` executor: open a UDP port (never emitted by this task) -/
  | openUdpPort (port : Nat)
  /-- `firewall` executor: close a UDP port (never emitted by this task) -/
  | closeUdpPort (port : Nat)
deriving Repr, DecidableEq

/-- `SessionSync.setupSession`. -/
def setupSession (s : BgpSession) : List SessAction :=
  (if s.typ = "wireguard" ∧ s.credential ≠ "" then
    [SessAction.createInterface s.interface 0 s.credential s.endpoint
      ((if s.ipv4 ≠ "" then [s.ipv4 ++ "/32"] else []) ++
        (if s.ipv6 ≠ "" then [s.ipv6 ++ "/128"] else []) ++
        (if s.ipv6LinkLocal ≠ "" then [s.ipv6LinkLocal ++ "/128"] else []))
      25,
     SessAction.setMTU s.interface (if s.mtu = 0 then 1420 else s.mtu)]
  else []) ++
  [SessAction.generatePeerConfig ("dn42_" ++ toString s.asn),
   SessAction.birdConfigure,
   SessAction.reportStatus s.uuid "active" ""]

/-- `SessionSync.deleteSession`: remove the peer fragment, reload BIRD,
delete the tunnel interface (for wireguard sessions with an interface
name), report `deleted`.  No firewall call appears in the source. -/
def deleteSession (s : BgpSession) : List SessAction :=
  [SessAction.removePeerConfig ("dn42_" ++ toString s.asn),
   SessAction.birdConfigure] ++
  (if s.typ = "wireguard" ∧ s.interface ≠ "" then
    [SessAction.deleteInterface s.interface]
  else []) ++
  [SessAction.reportStatus s.uuid "deleted" ""]

/-- `SessionSync.cleanupDisabledSession`: same teardown, no CP report. -/
def cleanupDisabledSession (s : BgpSession) : List SessAction :=
  [SessAction.removePeerConfig ("dn42_" ++ toString s.asn),
   SessAction.birdConfigure] ++
  (if s.typ = "wireguard" ∧ s.interface ≠ "" then
    [SessAction.deleteInterface s.interface]
  else [])

/-- `SessionSync.processSession`: the status switch.  `verifySession`
(Enabled) and `handleProblemSession` (Problem) are `TODO` stubs in the
source and perform no external action; PendingApproval and unknown
statuses are skipped. -/
def processSession (s : BgpSession) : List SessAction :=
  if s.status = StatusQueuedForSetup then setupSession s
  else if s.status = StatusEnabled then []
  else if s.status = StatusQueuedForDelete then deleteSession s
  else if s.status = StatusProblem then []
  else if s.status = StatusDisabled then cleanupDisabledSession s
  else if s.status = StatusPendingApproval then []
  else []

/-- The Go `remoteMap` insert: `remoteMap[sessions[i].UUID] = &sessions[i]`. -/
def mapInsert (m : List (String × BgpSession)) (s : BgpSession) :
    List (String × BgpSession) :=
  (m.filter fun p => p.1 ≠ s.uuid) ++ [(s.uuid, s)]

def buildMap (fetched : List BgpSession) : List (String × BgpSession) :=
  fetched.foldl mapInsert []

/-- `SessionSync.Sync` after a successful fetch: process each fetched
session in order, then walk the local map — the branch for UUIDs absent
from the fetch only logs (`// TODO: Remove WireGuard interface and BIRD
config`) and emits nothing — and finally replace the local map with the
fetched one. -/
def sessionSync (_localSessions : List (String × BgpSession))
    (fetched : List BgpSession) :
    List (String × BgpSession) × List SessAction :=
  (buildMap fetched, fetched.flatMap processSession)

end SessSync

end MoenetAgent

namespace MoenetAgent

/-! ## Diagnostic tool endpoints (`internal/api/tools.go`)

`handleTool` is the shared request path of `/ping`, `/tcping`, `/trace`,
`/route` and `/path`.  The HTTP response is summarised by its status code
plus whether the diagnostic command `fn` was invoked. -/

namespace Tools

inductive BodyDecode where
  /-- `json.NewDecoder(r.Body).Decode(&req)` failed -/
  | invalid
  /-- decoded `ToolRequest{Target}` -/
  | decoded (target : String)
deriving Repr, DecidableEq

structure ToolHttpRequest where
  method : String
  authHeader : String
  body : BodyDecode
deriving Repr, DecidableEq

structure ToolOutcome where
  status : Nat
  /-- whether `fn(req.Target)` ran -/
  executed : Bool
deriving Repr, DecidableEq

/-- The characters of the Go literal `";&|` + backquote + `$(){}[]<>\"'"`
rejected by the injection filter (braces, backquote, backslash, quote and
apostrophe written by code point). -/
def forbiddenChars : List Char :=
  [';', '&', '|', Char.ofNat 96, '$', '(', ')', Char.ofNat 123, Char.ofNat 125,
    '[', ']', '<', '>', Char.ofNat 92, Char.ofNat 34, Char.ofNat 39]

/-- `strings.ContainsAny(target, ";&|...")`. -/
def containsForbidden (target : String) : Bool :=
  target.data.any fun c => forbiddenChars.contains c

/-- `ToolsHandler.handleTool`:

```go
if r.Method != http.MethodPost { 405; return }
if h.token != "" {
    if r.Header.Get("Authorization") != "Bearer "+h.token { 401; return }
}
if decode fails { 400; return }
if req.Target == "" { 400; return }
if strings.ContainsAny(req.Target, ";&|...") { 400; return }
result, err := fn(req.Target)
if err != nil { 500; return }
200
```

`fnFails target` says whether the diagnostic command returns an error. -/
def handleTool (token : String) (req : ToolHttpRequest)
    (fnFails : String → Bool) : ToolOutcome :=
  if req.method ≠ "POST" then ⟨405, false⟩
  else if token ≠ "" ∧ req.authHeader ≠ "Bearer " ++ token then ⟨401, false⟩
  else
    match req.body with
    | .invalid => ⟨400, false⟩
    | .decoded target =>
      if target = "" then ⟨400, false⟩
      else if containsForbidden target then ⟨400, false⟩
      else if fnFails target then ⟨500, true⟩
      else ⟨200, true⟩

end Tools

/-- C10 counterexample: with a non-empty configured token, a GET request
whose Authorization header is not `Bearer <token>` is rejected with 405
(the method check precedes the token check), not with 401 as the claim
states — though the diagnostic command still does not run. -/
theorem c10_get_rejected_405_not_401 :
    ("secret" : String) ≠ "" ∧
    ("" : String) ≠ "Bearer " ++ "secret" ∧
    Tools.handleTool "secret" ⟨"GET", "", .decoded "172.20.0.53"⟩ (fun _ => false) =
      ⟨405, false⟩ ∧
    (Tools.handleTool "secret" ⟨"GET", "", .decoded "172.20.0.53"⟩
        (fun _ => false)).status ≠ 401 := by
  refine ⟨by decide, by decide, rfl, by decide⟩

/-- C10 amended: for POST requests, when the configured token is
non-empty, a request whose Authorization header is not exactly
`Bearer <token>` is rejected with HTTP 401 and the diagnostic command is
not executed; when the configured token is the empty string the
bearer-token check is skipped entirely — the handler's outcome does not
depend on the Authorization header.  (Non-POST requests are rejected with
405 before the token check.) -/
theorem c10_bearer_token_guard (token : String) (req : Tools.ToolHttpRequest)
    (fnFails : String → Bool) :
    (req.method = "POST" → token ≠ "" → req.authHeader ≠ "Bearer " ++ token →
      Tools.handleTool token req fnFails = ⟨401, false⟩) ∧
    (∀ a : String,
      Tools.handleTool "" { req with authHeader := a } fnFails =
        Tools.handleTool "" req fnFails) ∧
    (req.method ≠ "POST" → Tools.handleTool token req fnFails = ⟨405, false⟩) := by
  refine ⟨?_, ?_, ?_⟩
  · intro hm ht ha
    unfold Tools.handleTool
    rw [if_neg (by simp [hm]), if_pos ⟨ht, ha⟩]
  · intro a
    unfold Tools.handleTool
    simp
  · intro hm
    unfold Tools.handleTool
    rw [if_pos hm]

/-- C10 amended, witness: POST with a wrong bearer token is 401 and does
not execute; with an empty configured token the Authorization header is
irrelevant. -/
theorem c10_bearer_token_guard_witness :
    (("POST" : String) = "POST" ∧ ("secret" : String) ≠ "" ∧
      ("Bearer wrong" : String) ≠ "Bearer " ++ "secret") ∧
    Tools.handleTool "secret" ⟨"POST", "Bearer wrong", .decoded "172.20.0.53"⟩
        (fun _ => false) = ⟨401, false⟩ ∧
    Tools.handleTool "" ⟨"POST", "anything", .decoded "172.20.0.53"⟩
        (fun _ => false) =
      Tools.handleTool "" ⟨"POST", "", .decoded "172.20.0.53"⟩ (fun _ => false) := by
  have h := c10_bearer_token_guard "secret"
    ⟨"POST", "Bearer wrong", .decoded "172.20.0.53"⟩ (fun _ => false)
  have h2 := c10_bearer_token_guard "" ⟨"POST", "", .decoded "172.20.0.53"⟩
    (fun _ => false)
  exact ⟨⟨rfl, by decide, by decide⟩, h.1 rfl (by decide) (by decide),
    h2.2.1 "anything"⟩

/-- C2: evaluation at the failing input.  The local map holds session
`u1` (previously Active) and the CP fetch returns an empty list.  The
iteration emits NO external action at all — in particular no peer-config
removal, no BGP reconfigure and no tunnel deletion for `u1` — and then
atomically replaces the local map with the (empty) fetched map.  The
delete path the claim requires is the `// TODO: Remove WireGuard
interface and BIRD config` branch of `SessionSync.Sync`. -/
theorem c2_stale_uuid_no_cleanup :
    (SessSync.sessionSync
        [("u1", ⟨"u1", 4242420123, "peer1", SessSync.StatusEnabled, "wireguard",
          "wg_u1", "203.0.113.10:24000", "K", "172.22.0.1", "fd00::1", "fe80::1",
          1420, ""⟩)] []).2 = [] ∧
    (SessSync.sessionSync
        [("u1", ⟨"u1", 4242420123, "peer1", SessSync.StatusEnabled, "wireguard",
          "wg_u1", "203.0.113.10:24000", "K", "172.22.0.1", "fd00::1", "fe80::1",
          1420, ""⟩)] []).1 = [] := by
  exact ⟨rfl, rfl⟩

/-- C3 counterexample: for a concrete fetched session with status
QueuedForDelete, one iteration removes the peer config, reconfigures BIRD,
deletes the tunnel and reports `deleted` — but performs NO firewall
operation: `deleteSession` never touches the firewall executor, so the
session's UDP port is not closed. -/
theorem c3_delete_no_firewall_close :
    SessSync.processSession
        ⟨"u1", 4242420123, "peer1", SessSync.StatusQueuedForDelete, "wireguard",
          "wg_u1", "203.0.113.10:24000", "K", "", "", "fe80::1", 1420, ""⟩ =
      [SessSync.SessAction.removePeerConfig "dn42_4242420123",
        SessSync.SessAction.birdConfigure,
        SessSync.SessAction.deleteInterface "wg_u1",
        SessSync.SessAction.reportStatus "u1" "deleted" ""] ∧
    ∀ p, SessSync.SessAction.closeUdpPort p ∉
      SessSync.processSession
        ⟨"u1", 4242420123, "peer1", SessSync.StatusQueuedForDelete, "wireguard",
          "wg_u1", "203.0.113.10:24000", "K", "", "", "fe80::1", 1420, ""⟩ := by
  constructor
  · rfl
  · intro p
    simp [SessSync.processSession, SessSync.deleteSession, SessSync.StatusQueuedForSetup,
      SessSync.StatusEnabled, SessSync.StatusQueuedForDelete]

/-- C3 amended: for every fetched session with status QueuedForDelete, the
iteration removes the peer config file `peers/dn42_<asn>.conf`,
reconfigures the BGP daemon, deletes the tunnel interface (when the
session is a wireguard session with a non-empty interface name), and
reports status `deleted` to the CP — and performs no firewall port
change. -/
theorem c3_delete_path (s : SessSync.BgpSession)
    (h : s.status = SessSync.StatusQueuedForDelete) :
    SessSync.processSession s =
      [SessSync.SessAction.removePeerConfig ("dn42_" ++ toString s.asn),
        SessSync.SessAction.birdConfigure] ++
      (if s.typ = "wireguard" ∧ s.interface ≠ "" then
        [SessSync.SessAction.deleteInterface s.interface]
      else []) ++
      [SessSync.SessAction.reportStatus s.uuid "deleted" ""] ∧
    (∀ p, SessSync.SessAction.closeUdpPort p ∉ SessSync.processSession s) ∧
    (∀ p, SessSync.SessAction.openUdpPort p ∉ SessSync.processSession s) := by
  have heq : SessSync.processSession s = SessSync.deleteSession s := by
    simp [SessSync.processSession, h, SessSync.StatusQueuedForSetup,
      SessSync.StatusEnabled, SessSync.StatusQueuedForDelete]
  refine ⟨heq, ?_, ?_⟩ <;>
    · intro p
      rw [heq]
      unfold SessSync.deleteSession
      split <;> simp

/-- C3 amended, witness: the concrete scenario-2 session. -/
theorem c3_delete_path_witness :
    (⟨"u1", 4242420123, "peer1", SessSync.StatusQueuedForDelete, "wireguard",
        "wg_u1", "203.0.113.10:24000", "K", "", "", "fe80::1", 1420, ""⟩ :
      SessSync.BgpSession).status = SessSync.StatusQueuedForDelete ∧
    SessSync.processSession
        ⟨"u1", 4242420123, "peer1", SessSync.StatusQueuedForDelete, "wireguard",
          "wg_u1", "203.0.113.10:24000", "K", "", "", "fe80::1", 1420, ""⟩ =
      [SessSync.SessAction.removePeerConfig ("dn42_" ++ toString (4242420123 : Nat)),
        SessSync.SessAction.birdConfigure] ++
      (if ("wireguard" : String) = "wireguard" ∧ ("wg_u1" : String) ≠ "" then
        [SessSync.SessAction.deleteInterface "wg_u1"]
      else []) ++
      [SessSync.SessAction.reportStatus "u1" "deleted" ""] :=
  ⟨rfl,
    (c3_delete_path
      ⟨"u1", 4242420123, "peer1", SessSync.StatusQueuedForDelete, "wireguard",
        "wg_u1", "203.0.113.10:24000", "K", "", "", "fe80::1", 1420, ""⟩ rfl).1⟩

/-- C5: from a fresh Closed breaker, `failureThreshold` consecutive
`RecordFailure` calls (and no fewer) flip the breaker Open; while Open,
every `Allow` at a time not after `lastFailure + openDuration` is denied
with `CircuitOpen` (and the state is unchanged), and the first `Allow`
after that instant permits the call and moves the breaker to HalfOpen.
The defaults are `failureThreshold = 5` and `openDuration = 30 s`. -/
theorem c5_breaker_open_denies_until_duration (cfg : Breaker.CBConfig)
    (times : List Int)
    (hlen : times.length = (Breaker.CircuitBreaker.new cfg).config.failureThreshold) :
    (∀ k, k < times.length →
      (Breaker.failAll (Breaker.CircuitBreaker.new cfg) (times.take k)).state =
        .closed) ∧
    (Breaker.failAll (Breaker.CircuitBreaker.new cfg) times).state = .opened ∧
    (∀ now,
      ¬ now > (Breaker.failAll (Breaker.CircuitBreaker.new cfg) times).lastFailure +
          (Breaker.CircuitBreaker.new cfg).config.openDuration →
      Breaker.allow now (Breaker.failAll (Breaker.CircuitBreaker.new cfg) times) =
        (some .circuitOpen, Breaker.failAll (Breaker.CircuitBreaker.new cfg) times)) ∧
    (∀ now,
      now > (Breaker.failAll (Breaker.CircuitBreaker.new cfg) times).lastFailure +
          (Breaker.CircuitBreaker.new cfg).config.openDuration →
      (Breaker.allow now (Breaker.failAll (Breaker.CircuitBreaker.new cfg) times)).1 =
          none ∧
      (Breaker.allow now (Breaker.failAll (Breaker.CircuitBreaker.new cfg) times)).2.state =
          .halfOpen) ∧
    Breaker.defaultConfig.failureThreshold = 5 ∧
    Breaker.defaultConfig.openDuration = 30 * 1000000000 := by
  have hpos : 0 < (Breaker.CircuitBreaker.new cfg).config.failureThreshold := by
    simp [Breaker.CircuitBreaker.new]
    split <;> omega
  have hne : times ≠ [] := by
    intro h
    rw [h] at hlen
    simp at hlen
    omega
  have hcfg := Breaker.failAll_config times (Breaker.CircuitBreaker.new cfg)
  have hopen : (Breaker.failAll (Breaker.CircuitBreaker.new cfg) times).state =
      .opened := by
    apply Breaker.failAll_opens
    · rfl
    · simpa [Breaker.CircuitBreaker.new] using hlen
    · exact hne
  refine ⟨?_, hopen, ?_, ?_, rfl, rfl⟩
  · intro k hk
    have h1 : (times.take k).length = k := by
      simp [List.length_take]
      omega
    have := Breaker.failAll_closed_lt (times.take k)
      (Breaker.CircuitBreaker.new cfg) rfl ?_
    · exact this.1
    · rw [h1]
      simpa [Breaker.CircuitBreaker.new] using hk.trans_eq hlen
  · intro now hnow
    unfold Breaker.allow
    rw [hopen]
    simp only []
    rw [hcfg, if_neg hnow]
  · intro now hnow
    unfold Breaker.allow
    rw [hopen]
    simp only []
    rw [hcfg, if_pos hnow]
    exact ⟨rfl, rfl⟩

/-- C5 witness: the default configuration and failures at nanosecond
timestamps 1..5; the check at `now = lastFailure + 30 s` is still denied
and `now = lastFailure + 30 s + 1` is let through into HalfOpen. -/
theorem c5_breaker_witness :
    [(1 : Int), 2, 3, 4, 5].length =
      (Breaker.CircuitBreaker.new Breaker.defaultConfig).config.failureThreshold ∧
    (Breaker.failAll (Breaker.CircuitBreaker.new Breaker.defaultConfig)
        [1, 2, 3, 4, 5]).state = .opened ∧
    Breaker.allow (5 + 30 * 1000000000)
        (Breaker.failAll (Breaker.CircuitBreaker.new Breaker.defaultConfig)
          [1, 2, 3, 4, 5]) =
      (some .circuitOpen,
        Breaker.failAll (Breaker.CircuitBreaker.new Breaker.defaultConfig)
          [1, 2, 3, 4, 5]) ∧
    (Breaker.allow (5 + 30 * 1000000000 + 1)
        (Breaker.failAll (Breaker.CircuitBreaker.new Breaker.defaultConfig)
          [1, 2, 3, 4, 5])).2.state = .halfOpen := by
  have h := c5_breaker_open_denies_until_duration Breaker.defaultConfig
    [1, 2, 3, 4, 5] (by decide)
  have hlast : (Breaker.failAll (Breaker.CircuitBreaker.new Breaker.defaultConfig)
      [1, 2, 3, 4, 5]).lastFailure = 5 := by decide
  refine ⟨by decide, h.2.1, ?_, ?_⟩
  · apply h.2.2.1
    rw [hlast]
    decide
  · exact (h.2.2.2.1 (5 + 30 * 1000000000 + 1) (by rw [hlast]; decide)).2

/-- C1: counterexample evaluation.  Start from `NewPool(sock, 2, 2)` (two
idle connections, `maxSize = 2`) and let three callers acquire without any
release — exactly the situation where the spec demands that the third
caller block.  The third `acquire` does NOT block: it finds the channel
empty, sees `len(connections) = 0 < maxSize` and dials a third connection,
so three connections are simultaneously handed out against `maxSize = 2`. -/
theorem c1_pool_exceeds_max_size :
    (BirdPool.acquire (BirdPool.acquire
        (BirdPool.acquire (BirdPool.newPool 2 2)).2).2).1 ≠
      BirdPool.AcquireResult.wouldBlock ∧
    (BirdPool.acquire (BirdPool.acquire
        (BirdPool.acquire (BirdPool.newPool 2 2)).2).2).2.inUse.length = 3 ∧
    (BirdPool.acquire (BirdPool.acquire
        (BirdPool.acquire (BirdPool.newPool 2 2)).2).2).2.inUse.Nodup ∧
    (BirdPool.newPool 2 2).maxSize = 2 := by
  decide

/-- C4: `Execute` acquires a connection; on success the response is
returned and the connection goes back to the pool (`release`); on a write
(I/O) or read-framing error the broken connection is discarded and exactly
one transparent retry runs on a second, distinct connection; a failure of
the retried attempt surfaces to the caller with both connections
discarded. -/
theorem c4_execute_single_retry (behave : Nat → BirdPool.ConnOutcome)
    (st : BirdPool.PoolState) (hwf : BirdPool.WF st) (hmax : 0 < st.maxSize) :
    ∃ c₀,
      (BirdPool.execute behave st).2.2.head? = some (BirdPool.PoolEvent.acquired c₀) ∧
      (∀ s, behave c₀ = .ok s →
        (BirdPool.execute behave st).1 = .ok s ∧
        (BirdPool.execute behave st).2.2 = [.acquired c₀, .released c₀]) ∧
      ((behave c₀).isErr = true → ∃ c₁, c₁ ≠ c₀ ∧
        (∀ s, behave c₁ = .ok s →
          (BirdPool.execute behave st).1 = .ok s ∧
          (BirdPool.execute behave st).2.2 =
            [.acquired c₀, .discarded c₀, .acquired c₁, .released c₁]) ∧
        ((behave c₁).isErr = true →
          ((BirdPool.execute behave st).1 = .sendFailed ∨
            (BirdPool.execute behave st).1 = .readFailed) ∧
          (BirdPool.execute behave st).2.2 =
            [.acquired c₀, .discarded c₀, .acquired c₁, .discarded c₁])) := by
  obtain ⟨idle, maxSize, closed, nextId, inUse⟩ := st
  obtain ⟨hnd, hlt⟩ := hwf
  cases idle with
  | nil =>
    have h0 : (0 : Nat) < maxSize := hmax
    refine ⟨nextId, ?_, ?_, ?_⟩
    · cases hb : behave nextId <;>
        simp [BirdPool.execute, BirdPool.executeWithRetry, BirdPool.acquire,
          BirdPool.discard, BirdPool.release, hb, h0]
    · intro s hb
      simp [BirdPool.execute, BirdPool.executeWithRetry, BirdPool.acquire,
        BirdPool.discard, BirdPool.release, hb, h0]
    · intro hb0
      refine ⟨nextId + 1, by omega, ?_, ?_⟩
      · intro s hb1
        cases hb : behave nextId <;> simp [BirdPool.ConnOutcome.isErr, hb] at hb0 <;>
          simp [BirdPool.execute, BirdPool.executeWithRetry, BirdPool.acquire,
            BirdPool.discard, BirdPool.release, hb, hb1, h0]
      · intro hb1
        cases hb : behave nextId <;> simp [BirdPool.ConnOutcome.isErr, hb] at hb0 <;>
          cases hb1' : behave (nextId + 1) <;> simp [BirdPool.ConnOutcome.isErr, hb1'] at hb1 <;>
            simp [BirdPool.execute, BirdPool.executeWithRetry, BirdPool.acquire,
              BirdPool.discard, BirdPool.release, hb, hb1', h0]
  | cons c rest =>
    refine ⟨c, ?_, ?_, ?_⟩
    · cases hb : behave c <;>
        simp [BirdPool.execute, BirdPool.executeWithRetry, BirdPool.acquire,
          BirdPool.discard, BirdPool.release, hb]
    · intro s hb
      simp [BirdPool.execute, BirdPool.executeWithRetry, BirdPool.acquire,
        BirdPool.discard, BirdPool.release, hb]
    · intro hb0
      cases rest with
      | nil =>
        have hc : c < nextId := hlt c (by simp)
        refine ⟨nextId, by omega, ?_, ?_⟩
        · intro s hb1
          cases hb : behave c <;> simp [BirdPool.ConnOutcome.isErr, hb] at hb0 <;>
            simp [BirdPool.execute, BirdPool.executeWithRetry, BirdPool.acquire,
              BirdPool.discard, BirdPool.release, hb, hb1, hmax]
        · intro hb1
          cases hb : behave c <;> simp [BirdPool.ConnOutcome.isErr, hb] at hb0 <;>
            cases hb1' : behave nextId <;> simp [BirdPool.ConnOutcome.isErr, hb1'] at hb1 <;>
              simp [BirdPool.execute, BirdPool.executeWithRetry, BirdPool.acquire,
                BirdPool.discard, BirdPool.release, hb, hb1', hmax]
      | cons d rest2 =>
        have hcd : c ≠ d := by
          intro h
          exact (List.nodup_cons.mp hnd).1 (h ▸ List.mem_cons_self d rest2)
        refine ⟨d, fun h => hcd h.symm, ?_, ?_⟩
        · intro s hb1
          cases hb : behave c <;> simp [BirdPool.ConnOutcome.isErr, hb] at hb0 <;>
            simp [BirdPool.execute, BirdPool.executeWithRetry, BirdPool.acquire,
              BirdPool.discard, BirdPool.release, hb, hb1]
        · intro hb1
          cases hb : behave c <;> simp [BirdPool.ConnOutcome.isErr, hb] at hb0 <;>
            cases hb1' : behave d <;> simp [BirdPool.ConnOutcome.isErr, hb1'] at hb1 <;>
              simp [BirdPool.execute, BirdPool.executeWithRetry, BirdPool.acquire,
                BirdPool.discard, BirdPool.release, hb, hb1']

/-- C4 witness: pool of one idle connection (id 0), where connection 0
breaks on write and the freshly dialled connection 1 answers. -/
theorem c4_execute_single_retry_witness :
    BirdPool.WF (BirdPool.newPool 1 1) ∧ 0 < (BirdPool.newPool 1 1).maxSize ∧
    ∃ c₀,
      (BirdPool.execute
          (fun c => if c = 0 then .writeErr else .ok "0003 Reconfigured")
          (BirdPool.newPool 1 1)).2.2.head? =
        some (BirdPool.PoolEvent.acquired c₀) ∧
      (∀ s, (fun c => if c = 0 then BirdPool.ConnOutcome.writeErr
              else BirdPool.ConnOutcome.ok "0003 Reconfigured") c₀ = .ok s →
        (BirdPool.execute
            (fun c => if c = 0 then .writeErr else .ok "0003 Reconfigured")
            (BirdPool.newPool 1 1)).1 = .ok s ∧
        (BirdPool.execute
            (fun c => if c = 0 then .writeErr else .ok "0003 Reconfigured")
            (BirdPool.newPool 1 1)).2.2 = [.acquired c₀, .released c₀]) ∧
      (((fun c => if c = 0 then BirdPool.ConnOutcome.writeErr
          else BirdPool.ConnOutcome.ok "0003 Reconfigured") c₀).isErr = true →
        ∃ c₁, c₁ ≠ c₀ ∧
        (∀ s, (fun c => if c = 0 then BirdPool.ConnOutcome.writeErr
                else BirdPool.ConnOutcome.ok "0003 Reconfigured") c₁ = .ok s →
          (BirdPool.execute
              (fun c => if c = 0 then .writeErr else .ok "0003 Reconfigured")
              (BirdPool.newPool 1 1)).1 = .ok s ∧
          (BirdPool.execute
              (fun c => if c = 0 then .writeErr else .ok "0003 Reconfigured")
              (BirdPool.newPool 1 1)).2.2 =
            [.acquired c₀, .discarded c₀, .acquired c₁, .released c₁]) ∧
        (((fun c => if c = 0 then BirdPool.ConnOutcome.writeErr
            else BirdPool.ConnOutcome.ok "0003 Reconfigured") c₁).isErr = true →
          ((BirdPool.execute
              (fun c => if c = 0 then .writeErr else .ok "0003 Reconfigured")
              (BirdPool.newPool 1 1)).1 = .sendFailed ∨
            (BirdPool.execute
                (fun c => if c = 0 then .writeErr else .ok "0003 Reconfigured")
                (BirdPool.newPool 1 1)).1 = .readFailed) ∧
          (BirdPool.execute
              (fun c => if c = 0 then .writeErr else .ok "0003 Reconfigured")
              (BirdPool.newPool 1 1)).2.2 =
            [.acquired c₀, .discarded c₀, .acquired c₁, .discarded c₁])) :=
  ⟨by decide, by decide,
    c4_execute_single_retry
      (fun c => if c = 0 then .writeErr else .ok "0003 Reconfigured")
      (BirdPool.newPool 1 1) (by decide) (by decide)⟩

end MoenetAgent
